import Mathlib

/-!
# Verification of the bank ledger engine (`bankgui.py`)

Shallow embedding of the ledger core: the two account variants
(`SavingsAccount`, `CheckingAccount`), the `Customer` record, and the `Bank`
store with its mutating operations and persistence codec.  Python `float`
amounts are modelled as exact rationals (`Rat`); Python `dict`s (insertion
ordered, unique keys) are modelled as association lists with first-match
lookup, in-place update and key deletion.  Randomness in account-number
generation is an explicit parameter.  Exceptions raised by property setters
are modelled with `Option`.
-/

set_option autoImplicit false

namespace BankSys

/-- First-match lookup in an association list (Python `dict.get`). -/
def dget {β : Type} (k : String) : List (String × β) → Option β
  | [] => none
  | (k', v) :: rest => if k = k' then some v else dget k rest

/-- Update the first entry with key `k` in place, or append a new entry
(Python `d[k] = v`, which preserves insertion order on overwrite). -/
def dset {β : Type} (k : String) (v : β) : List (String × β) → List (String × β)
  | [] => [(k, v)]
  | (k', v') :: rest => if k = k' then (k, v) :: rest else (k', v') :: dset k v rest

/-- Remove every entry with key `k` (Python `del d[k]` on a dict, whose keys
are unique). -/
def ddel {β : Type} (k : String) (l : List (String × β)) : List (String × β) :=
  l.filter (fun p => p.1 ≠ k)

theorem dget_dset_self {β : Type} (k : String) (v : β) (l : List (String × β)) :
    dget k (dset k v l) = some v := by
  induction l with
  | nil => simp [dget, dset]
  | cons p rest ih =>
    by_cases h : k = p.1
    · simp [dset, h, dget]
    · simp [dset, h, dget, ih]

theorem dget_dset_ne {β : Type} (k k' : String) (v : β) (l : List (String × β))
    (h : k ≠ k') : dget k (dset k' v l) = dget k l := by
  induction l with
  | nil => simp [dget, dset, h]
  | cons p rest ih =>
    by_cases h1 : k' = p.1
    · subst h1
      simp [dset, dget, h]
    · by_cases h2 : k = p.1 <;> simp [dset, dget, h1, h2, ih]

theorem dget_ddel_self {β : Type} (k : String) (l : List (String × β)) :
    dget k (ddel k l) = none := by
  induction l with
  | nil => rfl
  | cons p rest ih =>
    by_cases h : p.1 = k
    · simpa [ddel, h] using ih
    · have hk : k ≠ p.1 := fun hkk => h hkk.symm
      simpa [ddel, h, dget, hk] using ih

theorem dget_map {β γ : Type} (f : β → γ) (k : String) (l : List (String × β)) :
    dget k (l.map (fun p => (p.1, f p.2))) = (dget k l).map f := by
  induction l with
  | nil => rfl
  | cons p rest ih =>
    by_cases h : k = p.1 <;> simp [dget, h, ih]

/-- `SavingsAccount` state: account number, holder id, balance, interest rate. -/
structure SavingsAccount where
  account_number : String
  account_holder_id : String
  balance : Rat
  interest_rate : Rat
  deriving DecidableEq, Repr

/-- `SavingsAccount.__init__`: a negative `interest_rate` argument is silently
replaced by the default `0.01`. -/
def SavingsAccount.make (account_number account_holder_id : String)
    (initial_balance interest_rate : Rat) : SavingsAccount :=
  { account_number := account_number
    account_holder_id := account_holder_id
    balance := initial_balance
    interest_rate := if interest_rate ≥ 0 then interest_rate else 0.01 }

/-- The `interest_rate` property setter: raises `ValueError` (modelled as
`none`) on a negative value, otherwise stores it. -/
def SavingsAccount.set_interest_rate (a : SavingsAccount) (value : Rat) :
    Option SavingsAccount :=
  if value < 0 then none else some { a with interest_rate := value }

/-- `SavingsAccount.deposit`: rejects non-positive amounts, else adds. -/
def SavingsAccount.deposit (a : SavingsAccount) (amount : Rat) :
    Bool × SavingsAccount :=
  if amount ≤ 0 then (false, a)
  else (true, { a with balance := a.balance + amount })

/-- `SavingsAccount.withdraw`: rejects non-positive amounts and amounts above
the balance, else subtracts. -/
def SavingsAccount.withdraw (a : SavingsAccount) (amount : Rat) :
    Bool × SavingsAccount :=
  if amount ≤ 0 ∨ amount > a.balance then (false, a)
  else (true, { a with balance := a.balance - amount })

/-- `SavingsAccount.apply_interest`: `balance += balance * interest_rate`. -/
def SavingsAccount.apply_interest (a : SavingsAccount) : SavingsAccount :=
  { a with balance := a.balance + a.balance * a.interest_rate }

/-- `CheckingAccount` state: account number, holder id, balance, overdraft
limit. -/
structure CheckingAccount where
  account_number : String
  account_holder_id : String
  balance : Rat
  overdraft_limit : Rat
  deriving DecidableEq, Repr

/-- `CheckingAccount.__init__`: a negative `overdraft_limit` argument is
silently replaced by the default `0.0`. -/
def CheckingAccount.make (account_number account_holder_id : String)
    (initial_balance overdraft_limit : Rat) : CheckingAccount :=
  { account_number := account_number
    account_holder_id := account_holder_id
    balance := initial_balance
    overdraft_limit := if overdraft_limit ≥ 0 then overdraft_limit else 0.0 }

/-- The `overdraft_limit` property setter: raises `ValueError` (modelled as
`none`) on a negative value, otherwise stores it. -/
def CheckingAccount.set_overdraft_limit (a : CheckingAccount) (value : Rat) :
    Option CheckingAccount :=
  if value < 0 then none else some { a with overdraft_limit := value }

/-- `CheckingAccount.deposit`: rejects non-positive amounts, else adds. -/
def CheckingAccount.deposit (a : CheckingAccount) (amount : Rat) :
    Bool × CheckingAccount :=
  if amount ≤ 0 then (false, a)
  else (true, { a with balance := a.balance + amount })

/-- `CheckingAccount.withdraw`: rejects non-positive amounts, rejects when the
resulting balance would fall below `-overdraft_limit`, else subtracts. -/
def CheckingAccount.withdraw (a : CheckingAccount) (amount : Rat) :
    Bool × CheckingAccount :=
  if amount ≤ 0 then (false, a)
  else if a.balance - amount < -a.overdraft_limit then (false, a)
  else (true, { a with balance := a.balance - amount })

/-- Closed tagged union of the two concrete `Account` subclasses. -/
inductive Account where
  | savings (a : SavingsAccount)
  | checking (a : CheckingAccount)
  deriving DecidableEq, Repr

def Account.account_number : Account → String
  | .savings a => a.account_number
  | .checking a => a.account_number

def Account.account_holder_id : Account → String
  | .savings a => a.account_holder_id
  | .checking a => a.account_holder_id

def Account.balance : Account → Rat
  | .savings a => a.balance
  | .checking a => a.balance

/-- Dynamic dispatch of `deposit` over the account variants. -/
def Account.deposit : Account → Rat → Bool × Account
  | .savings a, amount =>
      let r := a.deposit amount
      (r.1, .savings r.2)
  | .checking a, amount =>
      let r := a.deposit amount
      (r.1, .checking r.2)

/-- Dynamic dispatch of `withdraw` over the account variants. -/
def Account.withdraw : Account → Rat → Bool × Account
  | .savings a, amount =>
      let r := a.withdraw amount
      (r.1, .savings r.2)
  | .checking a, amount =>
      let r := a.withdraw amount
      (r.1, .checking r.2)

theorem Account.deposit_pos (a : Account) (amount : Rat) (h : 0 < amount) :
    (a.deposit amount).1 = true ∧
      (a.deposit amount).2.balance = a.balance + amount := by
  have hn : ¬ amount ≤ 0 := not_le.mpr h
  cases a <;> simp [Account.deposit, SavingsAccount.deposit,
    CheckingAccount.deposit, hn, Account.balance]

theorem Account.deposit_nonpos (a : Account) (amount : Rat) (h : amount ≤ 0) :
    (a.deposit amount).1 = false ∧ (a.deposit amount).2 = a := by
  cases a <;> simp [Account.deposit, SavingsAccount.deposit,
    CheckingAccount.deposit, h]

theorem Account.withdraw_balance (a : Account) (amount : Rat)
    (h : (a.withdraw amount).1 = true) :
    (a.withdraw amount).2.balance = a.balance - amount := by
  cases a with
  | savings s =>
    by_cases hc : amount ≤ 0 ∨ amount > s.balance
    · simp [Account.withdraw, SavingsAccount.withdraw, hc] at h
    · simp [Account.withdraw, SavingsAccount.withdraw, hc, Account.balance]
  | checking c =>
    by_cases h1 : amount ≤ 0
    · simp [Account.withdraw, CheckingAccount.withdraw, h1] at h
    · by_cases h2 : c.balance - amount < -c.overdraft_limit
      · simp [Account.withdraw, CheckingAccount.withdraw, h1, h2] at h
      · simp [Account.withdraw, CheckingAccount.withdraw, h1, h2,
          Account.balance]

theorem Account.withdraw_fail (a : Account) (amount : Rat)
    (h : (a.withdraw amount).1 = false) : (a.withdraw amount).2 = a := by
  cases a with
  | savings s =>
    by_cases hc : amount ≤ 0 ∨ amount > s.balance
    · simp [Account.withdraw, SavingsAccount.withdraw, hc]
    · simp [Account.withdraw, SavingsAccount.withdraw, hc] at h
  | checking c =>
    by_cases h1 : amount ≤ 0
    · simp [Account.withdraw, CheckingAccount.withdraw, h1]
    · by_cases h2 : c.balance - amount < -c.overdraft_limit
      · simp [Account.withdraw, CheckingAccount.withdraw, h1, h2]
      · simp [Account.withdraw, CheckingAccount.withdraw, h1, h2] at h

/-- `Customer` state: externally supplied id, name, address, and the ordered
list of owned account numbers. -/
structure Customer where
  customer_id : String
  name : String
  address : String
  account_numbers : List String
  deriving DecidableEq, Repr

/-- `Customer.__init__`: starts with an empty account-number list. -/
def Customer.make (customer_id name address : String) : Customer :=
  { customer_id := customer_id, name := name, address := address
    account_numbers := [] }

/-- `Customer.add_account_number`: appends unless already present. -/
def Customer.add_account_number (c : Customer) (account_number : String) :
    Customer :=
  if account_number ∈ c.account_numbers then c
  else { c with account_numbers := c.account_numbers ++ [account_number] }

/-- `Customer.remove_account_number`: removes the number if present. -/
def Customer.remove_account_number (c : Customer) (account_number : String) :
    Customer :=
  { c with account_numbers := c.account_numbers.erase account_number }

/-- The in-memory `Bank` store: insertion-ordered maps
`customer_id -> Customer` and `account_number -> Account`. -/
structure Bank where
  customers : List (String × Customer)
  accounts : List (String × Account)
  deriving DecidableEq, Repr

/-- `Bank.add_customer`: fails when the id is already present, else inserts. -/
def Bank.add_customer (b : Bank) (customer : Customer) : Bool × Bank :=
  match dget customer.customer_id b.customers with
  | some _ => (false, b)
  | none =>
      (true, { b with
        customers := dset customer.customer_id customer b.customers })

/-- `Bank.remove_customer`: fails when the id is unknown or the customer still
owns accounts; else deletes the customer. -/
def Bank.remove_customer (b : Bank) (customer_id : String) : Bool × Bank :=
  match dget customer_id b.customers with
  | none => (false, b)
  | some customer =>
      if customer.account_numbers ≠ [] then (false, b)
      else (true, { b with customers := ddel customer_id b.customers })

/-- Python's `str.lower()` on the account-type argument (ASCII lowering,
which is all the recognized kind tags need). -/
def str_lower (s : String) : String := ⟨s.data.map Char.toLower⟩

/-- `Bank.create_account`.  The value drawn by
`random.randint(100000000000, 999999999999)` is the explicit parameter `rng`;
the account number is its decimal string.  The keyword arguments
`interest_rate` / `overdraft_limit` are the two `Option Rat` parameters
(absent means the Python default).  The `try/except ValueError` around the
constructors is dead code — both constructors clamp instead of raising — so
the embedding is total. -/
def Bank.create_account (b : Bank) (rng : ℕ) (customer_id account_type : String)
    (initial_balance : Rat) (kw_interest_rate kw_overdraft_limit : Option Rat) :
    Option Account × Bank :=
  match dget customer_id b.customers with
  | none => (none, b)
  | some customer =>
      let account_number := toString rng
      if str_lower account_type = "savings" then
        let interest_rate := kw_interest_rate.getD 0.01
        let account := Account.savings
          (SavingsAccount.make account_number customer_id initial_balance
            interest_rate)
        (some account,
          { customers := dset customer_id
              (customer.add_account_number account_number) b.customers
            accounts := dset account_number account b.accounts })
      else if str_lower account_type = "checking" then
        let overdraft_limit := kw_overdraft_limit.getD 0.0
        let account := Account.checking
          (CheckingAccount.make account_number customer_id initial_balance
            overdraft_limit)
        (some account,
          { customers := dset customer_id
              (customer.add_account_number account_number) b.customers
            accounts := dset account_number account b.accounts })
      else (none, b)

/-- `Bank.deposit`: delegates to the account object; the store entry holds the
mutated object. -/
def Bank.deposit (b : Bank) (account_number : String) (amount : Rat) :
    Bool × Bank :=
  match dget account_number b.accounts with
  | none => (false, b)
  | some account =>
      let r := account.deposit amount
      (r.1, { b with accounts := dset account_number r.2 b.accounts })

/-- `Bank.withdraw`: delegates to the account object; the store entry holds
the mutated object. -/
def Bank.withdraw (b : Bank) (account_number : String) (amount : Rat) :
    Bool × Bank :=
  match dget account_number b.accounts with
  | none => (false, b)
  | some account =>
      let r := account.withdraw amount
      (r.1, { b with accounts := dset account_number r.2 b.accounts })

/-- `Bank.transfer_funds`.  Both account objects are fetched up front, so when
`from_acc_num = to_acc_num` they alias the same object: the deposit leg then
acts on the already-debited value.  On a failed deposit leg the amount is
compensated back into the source object. -/
def Bank.transfer_funds (b : Bank) (from_acc_num to_acc_num : String)
    (amount : Rat) : Bool × Bank :=
  match dget from_acc_num b.accounts, dget to_acc_num b.accounts with
  | some from_account, some to_account =>
      if amount ≤ 0 then (false, b)
      else
        let w := from_account.withdraw amount
        if w.1 = false then (false, b)
        else
          let to_obj := if to_acc_num = from_acc_num then w.2 else to_account
          let d := to_obj.deposit amount
          if d.1 = false then
            let comp := w.2.deposit amount
            (false, { b with accounts := dset from_acc_num comp.2 b.accounts })
          else
            let accounts := dset to_acc_num d.2 (dset from_acc_num w.2 b.accounts)
            (true, { b with accounts := accounts })
  | _, _ => (false, b)

/-- `Bank.get_all_customers`: snapshot of the customer objects. -/
def Bank.get_all_customers (b : Bank) : List Customer :=
  b.customers.map Prod.snd

/-- `Bank.get_all_accounts`: snapshot of the account objects. -/
def Bank.get_all_accounts (b : Bank) : List Account :=
  b.accounts.map Prod.snd

/-- The `isinstance(account, SavingsAccount)` test. -/
def Account.isSavings : Account → Bool
  | .savings _ => true
  | .checking _ => false

/-- One iteration of the `apply_all_interest` loop: apply interest when the
account is a savings account, otherwise leave it as is. -/
def applyInterestIfSavings : Account → Account
  | .savings s => .savings s.apply_interest
  | .checking c => .checking c

/-- `Bank.apply_all_interest`: applies interest to every savings account;
the returned number counts the `_save_data` calls (one when some savings
account exists, zero otherwise). -/
def Bank.apply_all_interest (b : Bank) : Bank × ℕ :=
  let accounts := b.accounts.map (fun p => (p.1, applyInterestIfSavings p.2))
  let changed := b.accounts.any (fun p => p.2.isSavings)
  ({ b with accounts := accounts }, if changed then 1 else 0)

/-- Serialized form of a customer (`Customer.to_dict`). -/
structure CustomerDict where
  customer_id : String
  name : String
  address : String
  account_numbers : List String
  deriving DecidableEq, Repr

/-- Serialized form of an account (`to_dict` of either variant, with its
`type` tag). -/
inductive AccountDict where
  | savings (account_number account_holder_id : String)
      (balance interest_rate : Rat)
  | checking (account_number account_holder_id : String)
      (balance overdraft_limit : Rat)
  deriving DecidableEq, Repr

/-- `Customer.to_dict`. -/
def Customer.to_dict (c : Customer) : CustomerDict :=
  { customer_id := c.customer_id, name := c.name, address := c.address
    account_numbers := c.account_numbers }

/-- `to_dict` of the concrete account classes. -/
def Account.to_dict : Account → AccountDict
  | .savings a =>
      .savings a.account_number a.account_holder_id a.balance a.interest_rate
  | .checking a =>
      .checking a.account_number a.account_holder_id a.balance a.overdraft_limit

/-- `Bank._save_data`: the two documents written to disk, keyed as the
in-memory maps are. -/
def Bank.save_data (b : Bank) :
    List (String × CustomerDict) × List (String × AccountDict) :=
  (b.customers.map (fun p => (p.1, p.2.to_dict)),
   b.accounts.map (fun p => (p.1, p.2.to_dict)))

/-- The customer-loading loop of `Bank._load_data`: rebuild a `Customer` and
add each serialized account number through `add_account_number`. -/
def loadCustomer (d : CustomerDict) : Customer :=
  d.account_numbers.foldl (fun c n => c.add_account_number n)
    (Customer.make d.customer_id d.name d.address)

/-- The account-loading branch of `Bank._load_data`: reconstruct through the
class constructors (which clamp negative parameters). -/
def loadAccount : AccountDict → Account
  | .savings n h bal rate => .savings (SavingsAccount.make n h bal rate)
  | .checking n h bal lim => .checking (CheckingAccount.make n h bal lim)

/-- `Bank._load_data` applied to already-parsed documents, including the
"fix relationships" pass that drops dangling account references. -/
def Bank.load_data (cd : List (String × CustomerDict))
    (ad : List (String × AccountDict)) : Bank :=
  let customers := cd.map (fun p => (p.1, loadCustomer p.2))
  let accounts := ad.map (fun p => (p.1, loadAccount p.2))
  { customers := customers.map (fun p => (p.1,
      { p.2 with account_numbers :=
          p.2.account_numbers.filter (fun n => (dget n accounts).isSome) }))
    accounts := accounts }

/-- The repair applied to one customer on load: keep only account references
that exist in the account map. -/
def dropDangling (accounts : List (String × Account)) (c : Customer) :
    Customer :=
  { c with account_numbers :=
      c.account_numbers.filter (fun n => (dget n accounts).isSome) }

/-- An operation on a savings account, for stating the balance invariant. -/
inductive SavOp where
  | deposit (amount : Rat)
  | withdraw (amount : Rat)
  | interest
  deriving DecidableEq, Repr

/-- Run one savings operation, with its success flag (`apply_interest` has no
failure mode). -/
def SavingsAccount.run (a : SavingsAccount) : SavOp → Bool × SavingsAccount
  | .deposit amount => a.deposit amount
  | .withdraw amount => a.withdraw amount
  | .interest => (true, a.apply_interest)

/-- Run a sequence of savings operations; `none` as soon as one fails, so a
`some` result is exactly a successful sequence. -/
def SavingsAccount.runOps (a : SavingsAccount) :
    List SavOp → Option SavingsAccount
  | [] => some a
  | op :: rest =>
      let r := a.run op
      if r.1 then r.2.runOps rest else none

/-- An operation on a checking account. -/
inductive ChkOp where
  | deposit (amount : Rat)
  | withdraw (amount : Rat)
  deriving DecidableEq, Repr

/-- Run one checking operation, with its success flag. -/
def CheckingAccount.run (a : CheckingAccount) : ChkOp → Bool × CheckingAccount
  | .deposit amount => a.deposit amount
  | .withdraw amount => a.withdraw amount

/-- Run a sequence of checking operations; `some` exactly when every
operation succeeds. -/
def CheckingAccount.runOps (a : CheckingAccount) :
    List ChkOp → Option CheckingAccount
  | [] => some a
  | op :: rest =>
      let r := a.run op
      if r.1 then r.2.runOps rest else none

/-- Well-formedness of the variant parameter, maintained by both
constructors (they clamp negatives) and both setters (they reject
negatives): a stored savings account has a non-negative interest rate, a
stored checking account a non-negative overdraft limit. -/
def Account.wf : Account → Prop
  | .savings s => 0 ≤ s.interest_rate
  | .checking c => 0 ≤ c.overdraft_limit

instance Account.wf.instDecidablePred : DecidablePred Account.wf := fun a =>
  match a with
  | .savings s => (inferInstance : Decidable (0 ≤ s.interest_rate))
  | .checking c => (inferInstance : Decidable (0 ≤ c.overdraft_limit))

/-! ## Concrete stores used by witnesses and counterexamples -/

/-- A store with one savings account, used for self-transfer statements. -/
def selfBank : Bank :=
  Bank.mk [("c1", Customer.mk "c1" "Alice" "1 Main St" ["1"])]
    [("1", Account.savings (SavingsAccount.mk "1" "c1" 100 0.01))]

/-- A store with two savings accounts, for the two-party transfer witness. -/
def twoBank : Bank :=
  Bank.mk [("c1", Customer.mk "c1" "Alice" "1 Main St" ["1", "2"])]
    [("1", Account.savings (SavingsAccount.mk "1" "c1" 100 0.01)),
     ("2", Account.savings (SavingsAccount.mk "2" "c1" 50 0.01))]

/-- A store with one account-less customer, for the customer-removal
witness. -/
def custBank : Bank :=
  Bank.mk [("c1", Customer.mk "c1" "Alice" "1 Main St" [])] []

/-- A store whose single account number could be re-drawn by the generator,
for the collision counterexample. -/
def collideBank : Bank :=
  Bank.mk [("c1", Customer.mk "c1" "Alice" "1 Main St" ["100000000000"])]
    [("100000000000",
      Account.savings (SavingsAccount.mk "100000000000" "c1" 0 0.01))]

/-- A store with a savings account at balance `100` and rate `0.05`, for the
interest scenario. -/
def interestBank : Bank :=
  Bank.mk [("c1", Customer.mk "c1" "Alice" "1 Main St" ["1"])]
    [("1", Account.savings (SavingsAccount.mk "1" "c1" 100 0.05))]

/-- A store with a dangling account reference (`"999"`), for the round-trip
witness. -/
def danglingBank : Bank :=
  Bank.mk [("c1", Customer.mk "c1" "Alice" "1 Main St" ["111", "999"])]
    [("111", Account.savings (SavingsAccount.mk "111" "c1" 25 0.01))]

/-! ## Theorems for the claims -/

/-- **C6.** A negative `interest_rate` (savings) or `overdraft_limit`
(checking) passed to the constructor is silently normalized to the variant
default (`0.01`, resp. `0.0`), while assigning a negative value through the
dedicated property setter raises (`none`), leaving no updated account
value. -/
theorem constructor_clamps_setter_rejects (n h : String) (bal r l v w : Rat)
    (sa : SavingsAccount) (ca : CheckingAccount)
    (hr : r < 0) (hl : l < 0) (hv : v < 0) (hw : w < 0) :
    (SavingsAccount.make n h bal r).interest_rate = 0.01 ∧
    (CheckingAccount.make n h bal l).overdraft_limit = 0 ∧
    sa.set_interest_rate v = none ∧
    ca.set_overdraft_limit w = none := by
  refine ⟨?_, ?_, ?_, ?_⟩
  · simp [SavingsAccount.make, not_le.mpr hr]
  · norm_num [CheckingAccount.make, not_le.mpr hl]
  · simp [SavingsAccount.set_interest_rate, hv]
  · simp [CheckingAccount.set_overdraft_limit, hw]

/-- Witness for `constructor_clamps_setter_rejects` at concrete negative
parameters. -/
theorem constructor_clamps_setter_rejects_witness :
    (SavingsAccount.make "1" "c1" 0 (-1)).interest_rate = 0.01 ∧
    (CheckingAccount.make "1" "c1" 0 (-2)).overdraft_limit = 0 ∧
    (SavingsAccount.make "1" "c1" 0 0.01).set_interest_rate (-3) = none ∧
    (CheckingAccount.make "1" "c1" 0 0).set_overdraft_limit (-4) = none :=
  constructor_clamps_setter_rejects "1" "c1" 0 (-1) (-2) (-3) (-4)
    (SavingsAccount.make "1" "c1" 0 0.01) (CheckingAccount.make "1" "c1" 0 0)
    (by norm_num) (by norm_num) (by norm_num) (by norm_num)

/-- **C7.** `remove_customer` succeeds iff the customer exists and owns no
accounts; on success the customer id is absent from the store, on failure
the store is unchanged. -/
theorem remove_customer_spec (b : Bank) (cid : String) :
    ((b.remove_customer cid).1 = true ↔
      ∃ c, dget cid b.customers = some c ∧ c.account_numbers = []) ∧
    ((b.remove_customer cid).1 = true →
      dget cid (b.remove_customer cid).2.customers = none) ∧
    ((b.remove_customer cid).1 = false → (b.remove_customer cid).2 = b) := by
  rcases hc : dget cid b.customers with _ | c
  · refine ⟨?_, ?_, ?_⟩
    · simp [Bank.remove_customer, hc]
    · simp [Bank.remove_customer, hc]
    · simp [Bank.remove_customer, hc]
  · by_cases hnil : c.account_numbers = []
    · refine ⟨?_, ?_, ?_⟩
      · simp [Bank.remove_customer, hc, hnil]
      · intro _
        simp [Bank.remove_customer, hc, hnil, dget_ddel_self]
      · simp [Bank.remove_customer, hc, hnil]
    · refine ⟨?_, ?_, ?_⟩
      · simp only [Bank.remove_customer, hc, if_pos hnil, hc]
        constructor
        · intro hft
          exact absurd hft (by simp)
        · rintro ⟨c', hc', hnil'⟩
          cases Option.some.inj hc'
          exact absurd hnil' hnil
      · simp only [Bank.remove_customer, hc, if_pos hnil]
        simp
      · simp only [Bank.remove_customer, hc, if_pos hnil]
        simp

/-- Witness for `remove_customer_spec`: removing the account-less customer
of `custBank` succeeds and the id is gone afterwards. -/
theorem remove_customer_spec_witness :
    dget "c1" (custBank.remove_customer "c1").2.customers = none :=
  (remove_customer_spec custBank "c1").2.1 (by decide)

/-- **C9.** A self-transfer (`from = to`) succeeds whenever the account
exists, the amount is positive, and the account's own `withdraw` succeeds;
the deposit leg re-credits the same (aliased) object, so the final balance
equals the balance before the call. -/
theorem transfer_funds_self_spec (b : Bank) (n : String) (acc : Account)
    (amount : Rat) (hA : dget n b.accounts = some acc) (hpos : 0 < amount)
    (hw : (acc.withdraw amount).1 = true) :
    (b.transfer_funds n n amount).1 = true ∧
    (dget n (b.transfer_funds n n amount).2.accounts).map Account.balance =
      some acc.balance := by
  have hnle : ¬ amount ≤ 0 := not_le.mpr hpos
  have hd := Account.deposit_pos (acc.withdraw amount).2 amount hpos
  have hwb := Account.withdraw_balance acc amount hw
  have hcancel : acc.balance - amount + amount = acc.balance := by ring
  constructor
  · simp [Bank.transfer_funds, hA, hnle, hw, hd.1]
  · simp [Bank.transfer_funds, hA, hnle, hw, hd.1, dget_dset_self, hd.2, hwb,
      hcancel]

/-- Witness for `transfer_funds_self_spec`: in `selfBank`, transferring 30
from account `"1"` to itself succeeds and leaves the balance at 100. -/
theorem transfer_funds_self_spec_witness :
    (selfBank.transfer_funds "1" "1" 30).1 = true ∧
    (dget "1" (selfBank.transfer_funds "1" "1" 30).2.accounts).map
      Account.balance = some 100 :=
  transfer_funds_self_spec selfBank "1"
    (Account.savings (SavingsAccount.mk "1" "c1" 100 0.01)) 30
    (by simp [selfBank, dget]) (by norm_num)
    (by norm_num [Account.withdraw, SavingsAccount.withdraw])

/-- **C1 counterexample.** The claim quantifies over every pair of account
numbers present in the store, including equal ones: in `selfBank` the call
`transfer_funds "1" "1" 30` returns success, yet account `"1"`'s balance
afterwards is 100, not `100 - 30` as the claim requires of the source
account. -/
theorem transfer_funds_pair_counterexample :
    (selfBank.transfer_funds "1" "1" 30).1 = true ∧
    (dget "1" (selfBank.transfer_funds "1" "1" 30).2.accounts).map
      Account.balance = some 100 ∧
    (dget "1" (selfBank.transfer_funds "1" "1" 30).2.accounts).map
      Account.balance ≠ some ((100 : Rat) - 30) := by
  refine ⟨?_, ?_, ?_⟩ <;>
    norm_num [selfBank, Bank.transfer_funds, dget, dset, Account.withdraw,
      SavingsAccount.withdraw, Account.deposit, SavingsAccount.deposit,
      Account.balance]

/-- **C1 (amended: the two account numbers must be distinct).**  For every
pair of *distinct* account numbers present in the store and every amount:
on success the source balance decreases by the amount and the destination
balance increases by it; on failure both balances are unchanged. -/
theorem transfer_funds_balances (b : Bank) (A B : String) (amount : Rat)
    (accA accB : Account) (hAB : A ≠ B)
    (hA : dget A b.accounts = some accA)
    (hB : dget B b.accounts = some accB) :
    ((b.transfer_funds A B amount).1 = true →
      (dget A (b.transfer_funds A B amount).2.accounts).map Account.balance =
        some (accA.balance - amount) ∧
      (dget B (b.transfer_funds A B amount).2.accounts).map Account.balance =
        some (accB.balance + amount)) ∧
    ((b.transfer_funds A B amount).1 = false →
      (dget A (b.transfer_funds A B amount).2.accounts).map Account.balance =
        some accA.balance ∧
      (dget B (b.transfer_funds A B amount).2.accounts).map Account.balance =
        some accB.balance) := by
  have hBA : B ≠ A := hAB.symm
  by_cases hle : amount ≤ 0
  · constructor
    · intro htrue
      exfalso
      simp [Bank.transfer_funds, hA, hB, hle] at htrue
    · intro _
      simp [Bank.transfer_funds, hA, hB, hle, hA, hB]
  · have hpos : 0 < amount := not_le.mp hle
    rcases hw : (accA.withdraw amount).1 with _ | _
    · -- withdraw leg fails: no mutation
      constructor
      · intro htrue
        exfalso
        simp [Bank.transfer_funds, hA, hB, hle, hw] at htrue
      · intro _
        simp [Bank.transfer_funds, hA, hB, hle, hw]
    · -- withdraw leg succeeds; the deposit leg always succeeds for a
      -- positive amount
      have hd := Account.deposit_pos accB amount hpos
      have hwb := Account.withdraw_balance accA amount hw
      constructor
      · intro _
        constructor
        · simp [Bank.transfer_funds, hA, hB, hle, hw, hBA, hd.1,
            dget_dset_ne A B _ _ hAB, dget_dset_self, hwb]
        · simp [Bank.transfer_funds, hA, hB, hle, hw, hBA, hd.1,
            dget_dset_self, hd.2]
      · intro hfalse
        exfalso
        simp [Bank.transfer_funds, hA, hB, hle, hw, hBA, hd.1] at hfalse

/-- Witness for `transfer_funds_balances`: in `twoBank`, transferring 30
from `"1"` to `"2"` moves the balances from 100/50 to 70/80. -/
theorem transfer_funds_balances_witness :
    ((twoBank.transfer_funds "1" "2" 30).1 = true →
      (dget "1" (twoBank.transfer_funds "1" "2" 30).2.accounts).map
        Account.balance = some ((100 : Rat) - 30) ∧
      (dget "2" (twoBank.transfer_funds "1" "2" 30).2.accounts).map
        Account.balance = some ((50 : Rat) + 30)) ∧
    ((twoBank.transfer_funds "1" "2" 30).1 = false →
      (dget "1" (twoBank.transfer_funds "1" "2" 30).2.accounts).map
        Account.balance = some 100 ∧
      (dget "2" (twoBank.transfer_funds "1" "2" 30).2.accounts).map
        Account.balance = some 50) :=
  transfer_funds_balances twoBank "1" "2" 30
    (Account.savings (SavingsAccount.mk "1" "c1" 100 0.01))
    (Account.savings (SavingsAccount.mk "2" "c1" 50 0.01))
    (by decide) (by simp [twoBank, dget]) (by simp [twoBank, dget])

/-- Lookup misses exactly when no entry carries the key. -/
theorem dget_eq_none_iff {β : Type} (k : String) (l : List (String × β)) :
    dget k l = none ↔ ∀ p ∈ l, p.1 ≠ k := by
  induction l with
  | nil => simp [dget]
  | cons p rest ih =>
    by_cases hk : k = p.1
    · simp only [dget, if_pos hk]
      constructor
      · intro h
        exact absurd h (by simp)
      · intro h
        exact absurd hk.symm (h p (List.mem_cons_self p rest))
    · simp only [dget, if_neg hk]
      rw [ih]
      constructor
      · intro h q hq
        rcases List.mem_cons.mp hq with hq | hq
        · subst hq
          exact fun he => hk he.symm
        · exact h q hq
      · intro h q hq
        exact h q (List.mem_cons_of_mem p hq)

/-- **C10.** `create_account` does not validate `initial_balance`: with a
known customer and a recognized kind it always succeeds, and the stored
account's balance is exactly the supplied value — including negative
values (below 0 for savings, below `-overdraft_limit` for checking). -/
theorem create_account_balance_unvalidated (b : Bank) (rng : ℕ)
    (cid kind : String) (bal : Rat) (ir ol : Option Rat) (c : Customer)
    (hc : dget cid b.customers = some c)
    (hk : str_lower kind = "savings" ∨ str_lower kind = "checking") :
    ∃ acct, (b.create_account rng cid kind bal ir ol).1 = some acct ∧
      acct.balance = bal ∧
      dget (toString rng)
        (b.create_account rng cid kind bal ir ol).2.accounts = some acct := by
  rcases hk with hk | hk
  · refine ⟨Account.savings
      (SavingsAccount.make (toString rng) cid bal (ir.getD 0.01)), ?_, ?_, ?_⟩
    · simp [Bank.create_account, hc, hk]
    · simp [Account.balance, SavingsAccount.make]
    · simp [Bank.create_account, hc, hk, dget_dset_self]
  · have hks : ¬ str_lower kind = "savings" := by
      rw [hk]; decide
    refine ⟨Account.checking
      (CheckingAccount.make (toString rng) cid bal (ol.getD 0.0)), ?_, ?_, ?_⟩
    · simp [Bank.create_account, hc, hk, hks]
    · simp [Account.balance, CheckingAccount.make]
    · simp [Bank.create_account, hc, hk, hks, dget_dset_self]

/-- Witness for `create_account_balance_unvalidated`: creating a savings
account with initial balance `-50` succeeds, and the stored balance is
`-50 < 0`. -/
theorem create_account_balance_unvalidated_witness :
    (∃ acct,
      (custBank.create_account 123 "c1" "savings" (-50) none none).1 =
        some acct ∧
      acct.balance = -50 ∧
      dget (toString 123)
        (custBank.create_account 123 "c1" "savings" (-50) none none).2.accounts
        = some acct) ∧ ((-50 : Rat) < 0) :=
  ⟨create_account_balance_unvalidated custBank 123 "c1" "savings" (-50)
    none none (Customer.mk "c1" "Alice" "1 Main St" [])
    (by decide) (Or.inl (by decide)), by norm_num⟩

/-- **C5 counterexample.** The generator performs no collision check: in
`collideBank`, whose account map already has the key `"100000000000"`, a
draw of `100000000000` makes `create_account` succeed with that same
number, so the assigned number coincides with an existing key. -/
theorem create_account_collision_counterexample :
    ((collideBank.create_account 100000000000 "c1" "savings" 0
        none none).1).map Account.account_number = some "100000000000" ∧
    (dget "100000000000" collideBank.accounts).isSome = true := by
  have h1 : str_lower "savings" = "savings" := by decide
  have h2 : toString (100000000000 : ℕ) = "100000000000" := by decide
  constructor
  · simp [collideBank, Bank.create_account, dget, Account.account_number,
      SavingsAccount.make, h1, h2]
  · simp [collideBank, dget]

/-- **C5 (amended).** `create_account` uses the drawn random value's decimal
string as the account number with no collision check: the new store's
account map is the in-place update at that key, so the assigned number is
distinct from every existing key if and only if the drawn string is not
already a key — and when it is, the existing account at that key is
overwritten by the new one. -/
theorem create_account_number_spec (b : Bank) (rng : ℕ) (cid kind : String)
    (bal : Rat) (ir ol : Option Rat) (c : Customer)
    (hc : dget cid b.customers = some c)
    (hk : str_lower kind = "savings" ∨ str_lower kind = "checking") :
    ∃ acct, (b.create_account rng cid kind bal ir ol).1 = some acct ∧
      acct.account_number = toString rng ∧
      (b.create_account rng cid kind bal ir ol).2.accounts =
        dset (toString rng) acct b.accounts ∧
      ((∀ p ∈ b.accounts, p.1 ≠ acct.account_number) ↔
        dget (toString rng) b.accounts = none) ∧
      dget (toString rng)
        (b.create_account rng cid kind bal ir ol).2.accounts = some acct := by
  rcases hk with hk | hk
  · refine ⟨Account.savings
      (SavingsAccount.make (toString rng) cid bal (ir.getD 0.01)),
      ?_, ?_, ?_, ?_, ?_⟩
    · simp [Bank.create_account, hc, hk]
    · simp [Account.account_number, SavingsAccount.make]
    · simp [Bank.create_account, hc, hk]
    · rw [show (Account.savings
        (SavingsAccount.make (toString rng) cid bal (ir.getD 0.01))).account_number
          = toString rng from rfl]
      exact (dget_eq_none_iff (toString rng) b.accounts).symm
    · simp [Bank.create_account, hc, hk, dget_dset_self]
  · have hks : ¬ str_lower kind = "savings" := by
      rw [hk]; decide
    refine ⟨Account.checking
      (CheckingAccount.make (toString rng) cid bal (ol.getD 0.0)),
      ?_, ?_, ?_, ?_, ?_⟩
    · simp [Bank.create_account, hc, hk, hks]
    · simp [Account.account_number, CheckingAccount.make]
    · simp [Bank.create_account, hc, hk, hks]
    · rw [show (Account.checking
        (CheckingAccount.make (toString rng) cid bal (ol.getD 0.0))).account_number
          = toString rng from rfl]
      exact (dget_eq_none_iff (toString rng) b.accounts).symm
    · simp [Bank.create_account, hc, hk, hks, dget_dset_self]

/-- Witness for `create_account_number_spec` at a fresh draw: the assigned
number is the drawn string and the store is updated at that key. -/
theorem create_account_number_spec_witness :
    ∃ acct, (custBank.create_account 555 "c1" "checking" 10 none
        (some 20)).1 = some acct ∧
      acct.account_number = toString 555 ∧
      (custBank.create_account 555 "c1" "checking" 10 none
        (some 20)).2.accounts = dset (toString 555) acct custBank.accounts ∧
      ((∀ p ∈ custBank.accounts, p.1 ≠ acct.account_number) ↔
        dget (toString 555) custBank.accounts = none) ∧
      dget (toString 555)
        (custBank.create_account 555 "c1" "checking" 10 none
          (some 20)).2.accounts = some acct :=
  create_account_number_spec custBank 555 "c1" "checking" 10 none (some 20)
    (Customer.mk "c1" "Alice" "1 Main St" [])
    (by decide) (Or.inr (by decide))

/-- **C8.** `apply_all_interest` applies `apply_interest` to every savings
account, leaves every checking account unchanged, and persists exactly once
when at least one savings account exists and not at all otherwise; in
particular a savings account with balance 100 and rate 0.05 ends at 105. -/
theorem apply_all_interest_spec (b : Bank) :
    (∀ k s, dget k b.accounts = some (Account.savings s) →
      dget k (b.apply_all_interest).1.accounts =
        some (Account.savings s.apply_interest)) ∧
    (∀ k c, dget k b.accounts = some (Account.checking c) →
      dget k (b.apply_all_interest).1.accounts =
        some (Account.checking c)) ∧
    ((∃ p ∈ b.accounts, ∃ s, p.2 = Account.savings s) →
      (b.apply_all_interest).2 = 1) ∧
    ((¬ ∃ p ∈ b.accounts, ∃ s, p.2 = Account.savings s) →
      (b.apply_all_interest).2 = 0) ∧
    (∀ s : SavingsAccount, s.balance = 100 → s.interest_rate = 0.05 →
      s.apply_interest.balance = 105) := by
  refine ⟨?_, ?_, ?_, ?_, ?_⟩
  · intro k s h
    simp only [Bank.apply_all_interest]
    rw [dget_map applyInterestIfSavings k b.accounts, h]
    rfl
  · intro k c h
    simp only [Bank.apply_all_interest]
    rw [dget_map applyInterestIfSavings k b.accounts, h]
    rfl
  · rintro ⟨p, hp, s, hs⟩
    have hany : b.accounts.any (fun p => p.2.isSavings) = true :=
      List.any_eq_true.mpr ⟨p, hp, by simp [hs, Account.isSavings]⟩
    simp [Bank.apply_all_interest, hany]
  · intro hno
    have hany : b.accounts.any (fun p => p.2.isSavings) = false := by
      rw [List.any_eq_false]
      intro p hp
      rcases hv : p.2 with s | c
      · exact absurd ⟨p, hp, s, hv⟩ hno
      · simp [Account.isSavings]
    simp [Bank.apply_all_interest, hany]
  · intro s h1 h2
    rw [SavingsAccount.apply_interest]
    simp only [h1, h2]
    norm_num

/-- Witness for `apply_all_interest_spec`: in `interestBank` the savings
account at balance 100, rate 0.05 gets interest applied and exactly one
persistence happens. -/
theorem apply_all_interest_spec_witness :
    dget "1" (interestBank.apply_all_interest).1.accounts =
      some (Account.savings
        ((SavingsAccount.mk "1" "c1" 100 0.05).apply_interest)) ∧
    (interestBank.apply_all_interest).2 = 1 := by
  have h := apply_all_interest_spec interestBank
  refine ⟨h.1 "1" (SavingsAccount.mk "1" "c1" 100 0.05)
    (by simp [interestBank, dget]), ?_⟩
  exact h.2.2.1 ⟨("1", Account.savings (SavingsAccount.mk "1" "c1" 100 0.05)),
    by simp [interestBank], SavingsAccount.mk "1" "c1" 100 0.05, rfl⟩

/-- **C2 counterexample.** The store never validates initial balances
(cf. `create_account_balance_unvalidated`), and a savings account that
starts negative stays negative across successful operations: starting from
balance `-50`, the single successful operation `deposit 10` ends at
`-40 < 0`. -/
theorem savings_negative_start_counterexample :
    ((SavingsAccount.make "1" "c1" (-50) 0.01).runOps
      [SavOp.deposit 10]).map SavingsAccount.balance = some (-40) ∧
    ¬ (0 : Rat) ≤ -40 := by
  constructor
  · norm_num [SavingsAccount.make, SavingsAccount.runOps, SavingsAccount.run,
      SavingsAccount.deposit]
  · norm_num

/-- The interest rate is not changed by any savings operation, and balance
non-negativity is preserved step by step when the rate is non-negative. -/
theorem SavingsAccount.runOps_nonneg (ops : List SavOp) :
    ∀ a a' : SavingsAccount, 0 ≤ a.balance → 0 ≤ a.interest_rate →
      a.runOps ops = some a' → 0 ≤ a'.balance := by
  induction ops with
  | nil =>
    intro a a' hb _ h
    cases h
    exact hb
  | cons op rest ih =>
    intro a a' hb hr h
    rcases op with amt | amt | _
    · by_cases hle : amt ≤ 0
      · simp [SavingsAccount.runOps, SavingsAccount.run,
          SavingsAccount.deposit, hle] at h
      · have hstep : a.runOps (SavOp.deposit amt :: rest) =
            ({ a with balance := a.balance + amt } : SavingsAccount).runOps
              rest := by
          simp [SavingsAccount.runOps, SavingsAccount.run,
            SavingsAccount.deposit, hle]
        rw [hstep] at h
        have hb' : (0 : Rat) ≤ a.balance + amt :=
          add_nonneg hb (le_of_lt (not_le.mp hle))
        exact ih { a with balance := a.balance + amt } a' hb' hr h
    · by_cases hc : amt ≤ 0 ∨ amt > a.balance
      · simp [SavingsAccount.runOps, SavingsAccount.run,
          SavingsAccount.withdraw, hc] at h
      · have hstep : a.runOps (SavOp.withdraw amt :: rest) =
            ({ a with balance := a.balance - amt } : SavingsAccount).runOps
              rest := by
          simp [SavingsAccount.runOps, SavingsAccount.run,
            SavingsAccount.withdraw, hc]
        rw [hstep] at h
        have hle : amt ≤ a.balance := le_of_not_lt (not_or.mp hc).2
        have hb' : (0 : Rat) ≤ a.balance - amt := sub_nonneg.mpr hle
        exact ih { a with balance := a.balance - amt } a' hb' hr h
    · have hstep : a.runOps (SavOp.interest :: rest) =
          a.apply_interest.runOps rest := by
        simp [SavingsAccount.runOps, SavingsAccount.run]
      rw [hstep] at h
      have hb' : 0 ≤ a.apply_interest.balance := by
        rw [SavingsAccount.apply_interest]
        exact add_nonneg hb (mul_nonneg hb hr)
      exact ih _ a' hb' (by rw [SavingsAccount.apply_interest]; exact hr) h

/-- **C2 (amended: the account's initial balance must be non-negative).**
A savings account constructed with a non-negative initial balance keeps a
non-negative balance after every successful sequence of deposit, withdraw
and interest operations (the constructor guarantees a non-negative rate). -/
theorem savings_balance_invariant (num holder : String) (bal rate : Rat)
    (ops : List SavOp) (a' : SavingsAccount) (hbal : 0 ≤ bal)
    (h : (SavingsAccount.make num holder bal rate).runOps ops = some a') :
    0 ≤ a'.balance := by
  have hrate : 0 ≤ (SavingsAccount.make num holder bal rate).interest_rate := by
    rw [SavingsAccount.make]
    dsimp only
    split
    · assumption
    · norm_num
  exact SavingsAccount.runOps_nonneg ops _ a' hbal hrate h

/-- Witness for `savings_balance_invariant`: 100 - 30 + interest at rate
0.01 stays non-negative. -/
theorem savings_balance_invariant_witness : 0 ≤
    (SavingsAccount.mk "1" "c1" (707/10) 0.01).balance :=
  savings_balance_invariant "1" "c1" 100 0.01
    [SavOp.withdraw 30, SavOp.interest]
    (SavingsAccount.mk "1" "c1" (707/10) 0.01) (by norm_num)
    (by norm_num [SavingsAccount.make, SavingsAccount.runOps,
      SavingsAccount.run, SavingsAccount.withdraw,
      SavingsAccount.apply_interest])

/-- **C3 counterexample.** Creation never validates the initial balance, so
a checking account can start below `-overdraft_limit` and stay there across
successful operations: starting at balance `-50` with limit `0`, the single
successful operation `deposit 10` ends at `-40 < -0`. -/
theorem checking_negative_start_counterexample :
    ((CheckingAccount.make "1" "c1" (-50) 0).runOps
      [ChkOp.deposit 10]).map CheckingAccount.balance = some (-40) ∧
    ((CheckingAccount.make "1" "c1" (-50) 0).runOps
      [ChkOp.deposit 10]).map CheckingAccount.overdraft_limit = some 0 ∧
    ¬ (-(0 : Rat) ≤ -40) := by
  refine ⟨?_, ?_, by norm_num⟩ <;>
    norm_num [CheckingAccount.make, CheckingAccount.runOps,
      CheckingAccount.run, CheckingAccount.deposit]

/-- The overdraft floor is preserved step by step by successful checking
operations (which never change the limit itself). -/
theorem CheckingAccount.runOps_floor (ops : List ChkOp) :
    ∀ a a' : CheckingAccount, -a.overdraft_limit ≤ a.balance →
      a.runOps ops = some a' → -a'.overdraft_limit ≤ a'.balance := by
  induction ops with
  | nil =>
    intro a a' hb h
    cases h
    exact hb
  | cons op rest ih =>
    intro a a' hb h
    rcases op with amt | amt
    · by_cases hle : amt ≤ 0
      · simp [CheckingAccount.runOps, CheckingAccount.run,
          CheckingAccount.deposit, hle] at h
      · have hstep : a.runOps (ChkOp.deposit amt :: rest) =
            ({ a with balance := a.balance + amt } : CheckingAccount).runOps
              rest := by
          simp [CheckingAccount.runOps, CheckingAccount.run,
            CheckingAccount.deposit, hle]
        rw [hstep] at h
        have hb' : -a.overdraft_limit ≤ a.balance + amt :=
          le_trans hb (le_add_of_nonneg_right (le_of_lt (not_le.mp hle)))
        exact ih { a with balance := a.balance + amt } a' hb' h
    · by_cases h1 : amt ≤ 0
      · simp [CheckingAccount.runOps, CheckingAccount.run,
          CheckingAccount.withdraw, h1] at h
      · by_cases h2 : a.balance - amt < -a.overdraft_limit
        · simp [CheckingAccount.runOps, CheckingAccount.run,
            CheckingAccount.withdraw, h1, h2] at h
        · have hstep : a.runOps (ChkOp.withdraw amt :: rest) =
              ({ a with balance := a.balance - amt } : CheckingAccount).runOps
                rest := by
            simp [CheckingAccount.runOps, CheckingAccount.run,
              CheckingAccount.withdraw, h1, h2]
          rw [hstep] at h
          exact ih { a with balance := a.balance - amt } a' (not_lt.mp h2) h

/-- **C3 (amended: the account's starting balance must respect the floor).**
A checking account whose balance starts at or above `-overdraft_limit`
stays at or above it after every successful sequence of deposits and
withdrawals; and `withdraw(amount)` fails exactly when `amount ≤ 0` or the
resulting balance would fall below `-overdraft_limit`, mutating the balance
otherwise. -/
theorem checking_floor_and_withdraw_spec (a0 a' ca : CheckingAccount)
    (ops : List ChkOp) (amount : Rat)
    (h0 : -a0.overdraft_limit ≤ a0.balance)
    (h : a0.runOps ops = some a') :
    -a'.overdraft_limit ≤ a'.balance ∧
    ((ca.withdraw amount).1 = false ↔
      amount ≤ 0 ∨ ca.balance - amount < -ca.overdraft_limit) ∧
    ((ca.withdraw amount).1 = true →
      (ca.withdraw amount).2 = { ca with balance := ca.balance - amount }) := by
  refine ⟨CheckingAccount.runOps_floor ops a0 a' h0 h, ?_, ?_⟩
  · by_cases h1 : amount ≤ 0
    · simp [CheckingAccount.withdraw, h1]
    · by_cases h2 : ca.balance - amount < -ca.overdraft_limit
      · simp [CheckingAccount.withdraw, h1, h2]
      · simp [CheckingAccount.withdraw, h1, h2]
  · intro hs
    by_cases h1 : amount ≤ 0
    · simp [CheckingAccount.withdraw, h1] at hs
    · by_cases h2 : ca.balance - amount < -ca.overdraft_limit
      · simp [CheckingAccount.withdraw, h1, h2] at hs
      · simp [CheckingAccount.withdraw, h1, h2]

/-- Witness for `checking_floor_and_withdraw_spec`: the spec's scenario —
balance 50, limit 20, `withdraw 60` succeeds to `-10 ≥ -20`, and a further
`withdraw 15` would fail since `-25 < -20`. -/
theorem checking_floor_and_withdraw_spec_witness :
    -(CheckingAccount.mk "1" "c1" (-10) 20).overdraft_limit ≤
      (CheckingAccount.mk "1" "c1" (-10) 20).balance ∧
    (((CheckingAccount.mk "1" "c1" (-10) 20).withdraw 15).1 = false ↔
      (15 : Rat) ≤ 0 ∨
        (CheckingAccount.mk "1" "c1" (-10) 20).balance - 15 <
          -(CheckingAccount.mk "1" "c1" (-10) 20).overdraft_limit) ∧
    (((CheckingAccount.mk "1" "c1" (-10) 20).withdraw 15).1 = true →
      ((CheckingAccount.mk "1" "c1" (-10) 20).withdraw 15).2 =
        { CheckingAccount.mk "1" "c1" (-10) 20 with
            balance := (CheckingAccount.mk "1" "c1" (-10) 20).balance - 15 }) :=
  checking_floor_and_withdraw_spec (CheckingAccount.make "1" "c1" 50 20)
    (CheckingAccount.mk "1" "c1" (-10) 20)
    (CheckingAccount.mk "1" "c1" (-10) 20) [ChkOp.withdraw 60] 15
    (by norm_num [CheckingAccount.make])
    (by norm_num [CheckingAccount.make, CheckingAccount.runOps,
      CheckingAccount.run, CheckingAccount.withdraw])

/-- Reloading the serialized form of a stored account reproduces it: the
constructor's clamping is the identity because stored parameters are
non-negative. -/
theorem loadAccount_to_dict (a : Account) (ha : Account.wf a) :
    loadAccount a.to_dict = a := by
  cases a with
  | savings s =>
    have h : s.interest_rate ≥ 0 := ha
    simp [Account.to_dict, loadAccount, SavingsAccount.make, h]
  | checking c =>
    have h : c.overdraft_limit ≥ 0 := ha
    simp [Account.to_dict, loadAccount, CheckingAccount.make, h]

/-- Folding `add_account_number` over fresh, duplicate-free numbers simply
appends them. -/
theorem foldl_add_account_number (l : List String) :
    ∀ c : Customer, l.Nodup → (∀ n ∈ l, n ∉ c.account_numbers) →
      l.foldl (fun c n => c.add_account_number n) c =
        { c with account_numbers := c.account_numbers ++ l } := by
  induction l with
  | nil =>
    intro c _ _
    simp
  | cons n rest ih =>
    intro c hnd hnotin
    have hn : n ∉ c.account_numbers := hnotin n (List.mem_cons_self n rest)
    have hadd : c.add_account_number n =
        { c with account_numbers := c.account_numbers ++ [n] } := by
      simp [Customer.add_account_number, hn]
    rw [List.foldl_cons, hadd,
      ih { c with account_numbers := c.account_numbers ++ [n] }
        (List.nodup_cons.mp hnd).2 ?_]
    · simp
    · intro m hm
      rw [List.mem_append]
      rintro (hmc | hmn)
      · exact hnotin m (List.mem_cons_of_mem n hm) hmc
      · rw [List.mem_singleton] at hmn
        exact (List.nodup_cons.mp hnd).1 (hmn ▸ hm)

/-- Reloading the serialized form of a customer whose account list has no
duplicates reproduces it. -/
theorem loadCustomer_to_dict (c : Customer)
    (h : c.account_numbers.Nodup) : loadCustomer c.to_dict = c := by
  rw [loadCustomer, Customer.to_dict]
  dsimp only
  rw [foldl_add_account_number c.account_numbers
    (Customer.make c.customer_id c.name c.address) h (by simp [Customer.make])]
  simp [Customer.make]

/-- **C4.** Serializing the full store and reloading it yields an observably
identical store — identical account map, and identical customers except
that account numbers with no matching account entry are dropped — given the
store's maintained invariants: duplicate-free customer account lists and
non-negative variant parameters (which creation, the setters and loading
all preserve, so every reachable store satisfies them). -/
theorem save_load_roundtrip (b : Bank)
    (hnodup : ∀ p ∈ b.customers, (Prod.snd p).account_numbers.Nodup)
    (hwf : ∀ p ∈ b.accounts, Account.wf p.2) :
    Bank.load_data (b.save_data).1 (b.save_data).2 =
      Bank.mk (b.customers.map (fun p => (p.1, dropDangling b.accounts p.2)))
        b.accounts := by
  have hacc : ((b.accounts.map (fun p => (p.1, Account.to_dict p.2))).map
      (fun p => (p.1, loadAccount p.2))) = b.accounts := by
    rw [List.map_map]
    have hpt : ∀ p ∈ b.accounts,
        ((fun p => (p.1, loadAccount p.2)) ∘
          (fun p => (p.1, Account.to_dict p.2))) p = id p := by
      intro p hp
      simp [Function.comp, loadAccount_to_dict p.2 (hwf p hp)]
    rw [List.map_congr_left hpt, List.map_id]
  have hcust : ((b.customers.map (fun p => (p.1, Customer.to_dict p.2))).map
      (fun p => (p.1, loadCustomer p.2))) = b.customers := by
    rw [List.map_map]
    have hpt : ∀ p ∈ b.customers,
        ((fun p => (p.1, loadCustomer p.2)) ∘
          (fun p => (p.1, Customer.to_dict p.2))) p = id p := by
      intro p hp
      simp [Function.comp, loadCustomer_to_dict p.2 (hnodup p hp)]
    rw [List.map_congr_left hpt, List.map_id]
  simp only [Bank.load_data, Bank.save_data]
  rw [hacc, hcust]
  simp [dropDangling]

/-- Witness for `save_load_roundtrip` on `danglingBank`: the account map
survives unchanged and the dangling reference `"999"` is dropped from the
customer. -/
theorem save_load_roundtrip_witness :
    Bank.load_data (danglingBank.save_data).1 (danglingBank.save_data).2 =
      Bank.mk (danglingBank.customers.map
        (fun p => (p.1, dropDangling danglingBank.accounts p.2)))
        danglingBank.accounts :=
  save_load_roundtrip danglingBank (by simp [danglingBank])
    (by norm_num [danglingBank, Account.wf])

end BankSys
